import Mathlib

/-!
Verification development for the anaglyph dual-camera viewer
(technocreatives/anaglyph_robot, src/main.rs).

The program opens two V4L2 capture devices, negotiates a pixel format for
each, runs one background capture/decode thread per camera publishing the
latest decoded frame into a shared single-slot buffer, and composites both
feeds into one window with per-camera color masks and alpha blending.

This file gives a shallow embedding of the pipeline:
  - the negotiation done by fn cam (main.rs lines 256-276),
  - the capture loop body (main.rs lines 287-307),
  - the single-slot frame store shared between a capture worker and the
    compositor, modelled as an atomic-step transition system (justified by
    the RwLock: each critical section is one whole payload replacement or
    one whole clone),
  - the compositor tick: image_to_uniforms (lines 180-201) and the two
    masked, alpha-blended draw calls (lines 203-233),
  - the fragment-shader texture-coordinate transform generated by the
    flip_y / flip_x options (lines 114-129 and 154-169), together with the
    row-reversed texture upload (from_raw_rgb_reversed, line 186).
-/

namespace AnaglyphRobot

/-- Pixel payloads and raw capture buffers: byte sequences. -/
abbrev Bytes := List Nat

/-- FourCC code for direct RGB, 3 bytes per pixel (b"RGB3" in main.rs line 290). -/
def rgb3 : String := "RGB3"

/-- FourCC code for Motion-JPEG (b"MJPG" in main.rs lines 268 and 291). -/
def mjpg : String := "MJPG"

/-- Negotiated stream format: v4l Format with width, height and fourcc
(main.rs builds it with Format::new(width, height, FourCC::new(b"MJPG"))). -/
structure Format where
  width : Nat
  height : Nat
  fourcc : String
deriving Repr, DecidableEq

/-- Model of a V4L2 device as fn cam uses it: whether Device::with_path
succeeds, whether set_format returns Ok, and the active format the device
reports after a set_format request (v4l devices may answer a request with a
different format; the code reads it back with dev.format()). -/
structure Device where
  openOk : Bool
  setFormatOk : Bool
  respond : Format → Format

/-- Outcome of fn cam's negotiation phase: the propagated result, whether the
capture thread was spawned (thread::spawn at line 280 runs only after
negotiation succeeded), and the set_format requests issued to the device. -/
structure CamOutcome where
  result : Except String Format
  threadSpawned : Bool
  requests : List Format
deriving Repr

/-- Embedding of fn cam's negotiation (main.rs lines 256-276): open the
device, issue a single set_format request for MJPG at the requested size
(line 268), and on success report the device's active format (line 271).
There is no other set_format call in fn cam. -/
def cam (dev : Device) (width height : Nat) : CamOutcome :=
  if dev.openOk = false then
    ⟨.error "could not open device", false, []⟩
  else if dev.setFormatOk = false then
    ⟨.error "Could not set format", false, [⟨width, height, mjpg⟩]⟩
  else
    ⟨.ok (dev.respond ⟨width, height, mjpg⟩), true, [⟨width, height, mjpg⟩]⟩

/-- Observable startup effects of fn main: which cameras' capture threads
were spawned and whether the window / render state was created. -/
structure Effects where
  threads : List Nat
  windowCreated : Bool
deriving Repr, DecidableEq

/-- Embedding of fn main's startup sequence (main.rs lines 42-53): cam for
camera 1, then cam for camera 2, each followed by the question-mark
operator, and only then event-loop and window creation. An error from
either cam call is returned from main (non-zero process exit) before any
window exists; a failing first camera also prevents the second cam call,
hence its thread. -/
def mainStartup (dev1 dev2 : Device) (width height : Nat) :
    Except String (Format × Format) × Effects :=
  match (cam dev1 width height).result with
  | .error e => (.error e, ⟨[], false⟩)
  | .ok f1 =>
    match (cam dev2 width height).result with
    | .error e => (.error e, ⟨[1], false⟩)
    | .ok f2 => (.ok (f1, f2), ⟨[1, 2], true⟩)

/-- State of one capture worker: the frame store payload it publishes into
(empty at startup, line 278), the number of frame-store updates performed,
and the diagnostic lines written to stderr. -/
structure WorkerState where
  store : Bytes
  updates : Nat
  logs : List String
deriving Repr, DecidableEq

/-- Frame store and log state of a worker before any delivery. -/
def initWorker : WorkerState := ⟨[], 0, []⟩

/-- One iteration of the capture loop body (main.rs lines 287-307) on a
delivered buffer: dispatch on the negotiated format's fourcc; RGB3 publishes
the raw bytes, MJPG decodes (the external jpeg_decoder crate, abstracted as
the decode argument, none modelling Err) and publishes the decoded bytes, a
decode error logs and skips, and any other fourcc logs
"invalid buffer pixelformat" and skips. Every arm falls through to the next
loop iteration; publishing replaces the whole payload (line 306). -/
def captureStep (decode : Bytes → Option Bytes) (fourcc : String)
    (s : WorkerState) (buf : Bytes) : WorkerState :=
  if fourcc = rgb3 then
    ⟨buf, s.updates + 1, s.logs⟩
  else if fourcc = mjpg then
    match decode buf with
    | some d => ⟨d, s.updates + 1, s.logs⟩
    | none => ⟨s.store, s.updates, s.logs ++ ["failed to decode JPEG"]⟩
  else
    ⟨s.store, s.updates, s.logs ++ ["invalid buffer pixelformat"]⟩

/-- Run of the capture loop over a finite sequence of delivered buffers,
from a given worker state. -/
def captureRunFrom (decode : Bytes → Option Bytes) (fourcc : String)
    (s : WorkerState) : List Bytes → WorkerState
  | [] => s
  | buf :: bufs => captureRunFrom decode fourcc (captureStep decode fourcc s buf) bufs

/-- Value the loop body publishes into the frame store for a delivered
buffer, if any: the raw bytes for RGB3, the decoder output for MJPG, nothing
on a decode failure or an unknown fourcc. -/
def publishOf (decode : Bytes → Option Bytes) (fourcc : String)
    (buf : Bytes) : Option Bytes :=
  if fourcc = rgb3 then some buf
  else if fourcc = mjpg then decode buf
  else none

theorem captureRunFrom_append (decode : Bytes → Option Bytes) (fourcc : String)
    (s : WorkerState) (xs ys : List Bytes) :
    captureRunFrom decode fourcc s (xs ++ ys)
      = captureRunFrom decode fourcc (captureRunFrom decode fourcc s xs) ys := by
  induction xs generalizing s with
  | nil => rfl
  | cons b bs ih => simp [captureRunFrom, ih]

theorem captureStep_store (decode : Bytes → Option Bytes) (fourcc : String)
    (s : WorkerState) (buf : Bytes) :
    (captureStep decode fourcc s buf).store
      = (publishOf decode fourcc buf).getD s.store := by
  by_cases h1 : fourcc = "RGB3" <;> by_cases h2 : fourcc = "MJPG" <;>
    cases hd : decode buf <;>
      simp [captureStep, publishOf, rgb3, mjpg, h1, h2, hd]

theorem captureRunFrom_updates (decode : Bytes → Option Bytes)
    (s : WorkerState) (bufs : List Bytes) :
    (captureRunFrom decode mjpg s bufs).updates
      = s.updates + bufs.countP (fun b => (decode b).isSome) := by
  induction bufs generalizing s with
  | nil => simp [captureRunFrom]
  | cons b bs ih =>
    rw [captureRunFrom, ih]
    rcases hd : decode b with _ | d
    · simp [captureStep, mjpg, rgb3, hd, List.countP_cons]
    · simp [captureStep, mjpg, rgb3, hd, List.countP_cons]
      omega

/-! ## Frame store under concurrent access

The frame store is Arc(RwLock(Vec u8)). The writer's only access is
`*buffer.write().unwrap() = data` (line 306): a whole-payload replacement
under the exclusive write guard. The reader's only access is
`buffer.read().unwrap().clone()` (line 181): a whole-payload clone under the
read guard. Because every critical section is one of these two whole-payload
operations, any interleaving of the two threads is a sequence of atomic
events, which is what the transition system below ranges over. -/

/-- Atomic event on one camera's frame store: either one capture-loop
iteration on a delivered buffer (containing at most one whole-payload write)
or one compositor clone of the payload. -/
inductive SysEvent where
  | deliver (buf : Bytes)
  | readTick
deriving Repr, DecidableEq

/-- Joint state of a capture worker and the payloads the compositor has
cloned out of its frame store so far. -/
structure SysState where
  worker : WorkerState
  reads : List Bytes
deriving Repr, DecidableEq

/-- One atomic event on the store: a delivery runs the capture-loop body, a
read tick clones the current payload. -/
def sysStep (decode : Bytes → Option Bytes) (fourcc : String)
    (s : SysState) : SysEvent → SysState
  | .deliver buf => ⟨captureStep decode fourcc s.worker buf, s.reads⟩
  | .readTick => ⟨s.worker, s.worker.store :: s.reads⟩

/-- Run of an interleaving of deliveries and compositor reads from a given
state. -/
def sysRunFrom (decode : Bytes → Option Bytes) (fourcc : String)
    (s : SysState) : List SysEvent → SysState
  | [] => s
  | e :: es => sysRunFrom decode fourcc (sysStep decode fourcc s e) es

/-- Run of an interleaving from the initial state: empty store, no reads. -/
def sysRun (decode : Bytes → Option Bytes) (fourcc : String)
    (events : List SysEvent) : SysState :=
  sysRunFrom decode fourcc ⟨initWorker, []⟩ events

/-- Payloads published in full during an event sequence (each is one whole
replacement of the store's contents). -/
def publishes (decode : Bytes → Option Bytes) (fourcc : String) :
    List SysEvent → List Bytes
  | [] => []
  | .deliver buf :: es =>
    (match publishOf decode fourcc buf with
     | some d => [d]
     | none => []) ++ publishes decode fourcc es
  | .readTick :: es => publishes decode fourcc es

theorem sysRunFrom_invariant (decode : Bytes → Option Bytes) (fourcc : String) :
    ∀ (events : List SysEvent) (P : Bytes → Prop) (s : SysState),
      (s.worker.store = [] ∨ P s.worker.store) →
      (∀ p ∈ s.reads, p = [] ∨ P p) →
      ∀ p ∈ (sysRunFrom decode fourcc s events).reads,
        p = [] ∨ P p ∨ p ∈ publishes decode fourcc events := by
  intro events
  induction events with
  | nil =>
    intro P s hstore hreads p hp
    rcases hreads p hp with h | h
    · exact Or.inl h
    · exact Or.inr (Or.inl h)
  | cons e es ih =>
    intro P s hstore hreads p hp
    cases e with
    | readTick =>
      have h := ih P (sysStep decode fourcc s .readTick) hstore ?_ p hp
      · simpa [publishes] using h
      · intro q hq
        rcases List.mem_cons.mp hq with h | h
        · subst h; exact hstore
        · exact hreads q h
    | deliver buf =>
      rcases hpub : publishOf decode fourcc buf with _ | d
      · have hst : (sysStep decode fourcc s (.deliver buf)).worker.store
            = s.worker.store := by
          simp [sysStep, captureStep_store, hpub]
        have h := ih P (sysStep decode fourcc s (.deliver buf)) ?_ ?_ p hp
        · simpa [publishes, hpub] using h
        · rw [hst]; exact hstore
        · simpa [sysStep] using hreads
      · have hst : (sysStep decode fourcc s (.deliver buf)).worker.store = d := by
          simp [sysStep, captureStep_store, hpub]
        have h := ih (fun q => P q ∨ q = d)
            (sysStep decode fourcc s (.deliver buf)) ?_ ?_ p hp
        · rcases h with h | h | h
          · exact Or.inl h
          · rcases h with h | h
            · exact Or.inr (Or.inl h)
            · subst h; simp [publishes, hpub]
          · simp [publishes, hpub, h]
        · rw [hst]; exact Or.inr (Or.inr rfl)
        · intro q hq
          simp only [sysStep] at hq
          rcases hreads q hq with h | h
          · exact Or.inl h
          · exact Or.inr (Or.inl h)

/-! ## Compositing: masks and alpha blending

The compositor clears to (0,0,0,0) (line 178), then draws camera 1 with
color_mask (true,false,false,true) and camera 2 with color_mask
(false,true,true,true), each with glium's Blend::alpha_blending(), i.e.
out = src*src_alpha + dst*(1-src_alpha) per channel, alpha included
(lines 203-233). The textures are built from raw RGB data, so a sampled
texel carries alpha 255 (fully opaque). Channels are modelled as naturals
in 0..255, the blend as exact integer arithmetic over them; with an opaque
source the formula is exact (src*255/255 = src). -/

/-- Color with red, green, blue, alpha channels in 0..255. -/
structure RGBA where
  r : Nat
  g : Nat
  b : Nat
  a : Nat
deriving Repr, DecidableEq

/-- One channel of glium's alpha blending: src*srcA + dst*(1-srcA), over
0..255-scaled values. -/
def blendChannel (src dst srcA : Nat) : Nat :=
  (src * srcA + dst * (255 - srcA)) / 255

/-- Alpha blending of a source fragment over a destination pixel, every
channel (alpha included) weighted by the source alpha, as in
glium's Blend::alpha_blending(). -/
def alphaBlend (src dst : RGBA) : RGBA :=
  ⟨blendChannel src.r dst.r src.a, blendChannel src.g dst.g src.a,
   blendChannel src.b dst.b src.a, blendChannel src.a dst.a src.a⟩

/-- Per-draw color mask: which output channels the draw call may write
(glium's color_mask draw parameter). -/
structure ColorMask where
  r : Bool
  g : Bool
  b : Bool
  a : Bool
deriving Repr, DecidableEq

/-- Channel mask of camera 1's draw call: (true, false, false, true) at
main.rs line 212 — red and alpha only. -/
def camera1Mask : ColorMask := ⟨true, false, false, true⟩

/-- Channel mask of camera 2's draw call: (false, true, true, true) at
main.rs line 228 — green, blue and alpha only. -/
def camera2Mask : ColorMask := ⟨false, true, true, true⟩

/-- Clear color of each tick: target.clear_color(0.0, 0.0, 0.0, 0.0) at
line 178. -/
def clearColor : RGBA := ⟨0, 0, 0, 0⟩

/-- Texel sampled from a texture uploaded from raw RGB bytes: the three
stored channels plus an implicit opaque alpha. -/
def rgbTexel (r g b : Nat) : RGBA := ⟨r, g, b, 255⟩

/-- Effect of one draw call on one framebuffer pixel: blend the sampled
fragment over the pixel, then write back only the channels the mask
allows. -/
def drawPixel (mask : ColorMask) (src fb : RGBA) : RGBA :=
  let blended := alphaBlend src fb
  ⟨if mask.r then blended.r else fb.r, if mask.g then blended.g else fb.g,
   if mask.b then blended.b else fb.b, if mask.a then blended.a else fb.a⟩

/-- One composited output pixel of a tick on which both cameras draw: clear,
camera 1's masked draw, then camera 2's masked draw, with the texels the two
fragment shaders sampled. -/
def compositePixel (tex1 tex2 : RGBA) : RGBA :=
  drawPixel camera2Mask tex2 (drawPixel camera1Mask tex1 clearColor)

/-! ## Compositor tick: empty-payload handling

image_to_uniforms (lines 180-201) clones the payload out of the frame
store, returns None when it is empty, and otherwise builds the texture and
uniforms; each camera's draw call runs only under `if let Some(uniforms)`
(lines 203 and 219). -/

/-- Per-draw uniforms: the identity matrix literal of lines 192-197 and the
texture geometry the payload was uploaded with. -/
structure Uniforms where
  matrix : List (List ℚ)
  texWidth : Nat
  texHeight : Nat
  texData : Bytes
deriving Repr, DecidableEq

/-- Identity matrix literal passed as the matrix uniform (lines 192-197). -/
def identityMatrix : List (List ℚ) :=
  [[1, 0, 0, 0], [0, 1, 0, 0], [0, 0, 1, 0], [0, 0, 0, 1]]

/-- Embedding of the image_to_uniforms closure (lines 180-201): clone the
payload, return none when empty, otherwise build the texture from the bytes
at the negotiated format's geometry and pair it with the identity matrix. -/
def image_to_uniforms (buffer : Bytes) (format : Format) : Option Uniforms :=
  let data := buffer
  if data.isEmpty then none
  else some ⟨identityMatrix, format.width, format.height, data⟩

/-- Which camera a draw call belongs to. -/
inductive Cam where
  | cam1
  | cam2
deriving Repr, DecidableEq

/-- Draw calls issued by one render tick (lines 203-233): camera 1's draw
exactly when image_to_uniforms on store 1 returns Some, then camera 2's draw
exactly when it does on store 2. -/
def compositorTick (p1 p2 : Bytes) (f1 f2 : Format) : List Cam :=
  (match image_to_uniforms p1 f1 with
   | some _ => [Cam.cam1]
   | none => []) ++
  (match image_to_uniforms p2 f2 with
   | some _ => [Cam.cam2]
   | none => [])

/-! ## Texture orientation and the flip transforms

The texture is created with RawImage2d::from_raw_rgb_reversed (line 186),
which reverses the row order of the payload, so texture row tv (counted
from v = 0, the bottom) holds source row height-1-tv of the row-major
top-left-origin frame. The full-screen quad (lines 67-92) maps screen
bottom-left to texture coordinate (0,0) and top-right to (1,1), so the
output pixel at top-left-origin row r, column c samples, before any flip,
the texel with u-index c and v-index height-1-r. The fragment shaders
(lines 94-172) optionally rewrite the coordinates: the per-camera flip_y
option inserts both y = 1-y and x = 1-x (lines 125-126 and 165-166), and
the global flip_x option inserts x = 1-x after it (lines 121 and 161). At
texel centers, u ↦ 1-u is exactly the index map i ↦ width-1-i. -/

/-- Texel of the texture uploaded with from_raw_rgb_reversed, indexed by
u-index tu and v-index tv (from the bottom): row reversal puts source row
height-1-tv there. The source frame is abstracted as a function from
(row, column) to pixel value. -/
def textureAt (height : Nat) (src : Nat → Nat → Nat) (tu tv : Nat) : Nat :=
  src (height - 1 - tv) tu

/-- Fragment coordinate transform of the generated shaders on texel indices:
the flip_y block flips both indices, then the flip_x block flips the
u-index, mirroring at texel centers the 1.0 - coordinate rewrites. -/
def fragIndexTransform (flipY flipX : Bool) (width height : Nat)
    (u v : Nat) : Nat × Nat :=
  let p := if flipY then (width - 1 - u, height - 1 - v) else (u, v)
  (if flipX then width - 1 - p.1 else p.1, p.2)

/-- Pixel of one camera's rendered full-screen quad at output row r (from
the top) and column c: interpolate the quad's texture coordinates, apply
the fragment transform, and sample the row-reversed texture. -/
def renderedPixel (flipY flipX : Bool) (width height : Nat)
    (src : Nat → Nat → Nat) (r c : Nat) : Nat :=
  let p := fragIndexTransform flipY flipX width height c (height - 1 - r)
  textureAt height src p.1 p.2

/-- Fragment coordinate transform of the generated shaders on exact texture
coordinates, in shader order: the flip_y block rewrites y then x, the
flip_x block then rewrites x (lines 114-129 and 154-169). -/
def fragTransform (flipY flipX : Bool) (uv : ℚ × ℚ) : ℚ × ℚ :=
  let p := if flipY then (1 - uv.1, 1 - uv.2) else uv
  (if flipX then 1 - p.1 else p.1, p.2)

theorem flip_at_texel_center (n i : Nat) (h : i < n) :
    1 - ((i : ℚ) + 1 / 2) / n = (((n - 1 - i : Nat) : ℚ) + 1 / 2) / n := by
  have hcast : ((n - 1 - i : Nat) : ℚ) = (n : ℚ) - 1 - (i : ℚ) := by
    have hsub : n - 1 - i = n - (i + 1) := by omega
    rw [hsub, Nat.cast_sub h]
    push_cast
    ring
  have hn : (n : ℚ) ≠ 0 := Nat.cast_ne_zero.mpr (by omega)
  rw [hcast]
  field_simp
  ring

/-! ## Concrete devices and decoders used as test inputs -/

/-- Device that honors every set_format request exactly as asked (in
particular it accepts direct RGB) and opens fine. -/
def acceptAllDevice : Device := ⟨true, true, fun f => f⟩

/-- Device whose open (Device::with_path) fails. -/
def failOpenDevice : Device := ⟨false, true, fun f => f⟩

/-- Decoder behaviour on a well-formed 1 by 1 pixel JPEG: three RGB bytes,
regardless of the format negotiated with the camera. -/
def decodeTiny : Bytes → Option Bytes := fun _ => some [7, 7, 7]

/-- Decoder that fails exactly on an empty buffer and otherwise returns the
buffer itself. -/
def decodeNonEmpty : Bytes → Option Bytes := fun b => if b = [] then none else some b

/-- FourCC of a packed-YUV format, one that the capture loop's match does
not know. -/
def yuyv : String := "YUYV"

/-- Small format used to instantiate theorems at concrete inputs. -/
def testFormat : Format := ⟨2, 2, mjpg⟩

/-! ## Claims -/

/-- Claim C1, counterexample: fn cam never attempts direct RGB. Even for a
device that honors every request (so it would accept RGB3), the single
set_format request carries MJPG, no issued request mentions RGB3, and the
negotiated format is the compressed encoding, contradicting the claim that
direct RGB is attempted first and wins on such a device. -/
theorem c1_rgb_never_attempted :
    (∀ f, acceptAllDevice.respond f = f)
    ∧ (cam acceptAllDevice 1280 720).result = .ok ⟨1280, 720, mjpg⟩
    ∧ mjpg ≠ rgb3
    ∧ (∀ f ∈ (cam acceptAllDevice 1280 720).requests, f.fourcc ≠ rgb3) := by
  refine ⟨fun f => rfl, rfl, by decide, ?_⟩
  intro f hf
  simp only [cam, acceptAllDevice, Bool.true_eq_false, if_false,
    List.mem_singleton] at hf
  subst hf
  decide

/-- Claim C1, amended: negotiation issues exactly one set_format request,
for Motion-JPEG at the requested resolution (never direct RGB), and the
negotiated Frame Format is whatever the device reports after that MJPG
request; the capture thread is spawned afterwards. -/
theorem c1_negotiates_mjpg_directly (dev : Device) (width height : Nat)
    (hopen : dev.openOk = true) (hset : dev.setFormatOk = true) :
    (cam dev width height).result = .ok (dev.respond ⟨width, height, mjpg⟩)
    ∧ (cam dev width height).requests = [⟨width, height, mjpg⟩]
    ∧ (∀ f ∈ (cam dev width height).requests, f.fourcc = mjpg)
    ∧ (cam dev width height).threadSpawned = true := by
  simp [cam, hopen, hset]

/-- Witness for c1_negotiates_mjpg_directly at a concrete device and
resolution. -/
theorem c1_negotiates_mjpg_directly_witness :
    (cam acceptAllDevice 640 480).result
        = .ok (acceptAllDevice.respond ⟨640, 480, mjpg⟩)
    ∧ (cam acceptAllDevice 640 480).requests = [⟨640, 480, mjpg⟩]
    ∧ (∀ f ∈ (cam acceptAllDevice 640 480).requests, f.fourcc = mjpg)
    ∧ (cam acceptAllDevice 640 480).threadSpawned = true :=
  c1_negotiates_mjpg_directly acceptAllDevice 640 480 rfl rfl

/-- Claim C3: in a delivery sequence with one malformed compressed payload
among N valid ones, the MJPG worker performs exactly N frame-store updates,
the malformed delivery leaves the store unchanged and appends the decode
failure log line, and the worker is still alive afterwards: a further valid
delivery is decoded and published. -/
theorem c3_one_bad_delivery_skipped (decode : Bytes → Option Bytes)
    (pre post : List Bytes) (bad extra d : Bytes)
    (hbad : decode bad = none)
    (hpre : ∀ b ∈ pre, (decode b).isSome = true)
    (hpost : ∀ b ∈ post, (decode b).isSome = true)
    (hextra : decode extra = some d) :
    (captureRunFrom decode mjpg initWorker (pre ++ bad :: post)).updates
        = pre.length + post.length
    ∧ (captureStep decode mjpg (captureRunFrom decode mjpg initWorker pre) bad).store
        = (captureRunFrom decode mjpg initWorker pre).store
    ∧ (captureStep decode mjpg (captureRunFrom decode mjpg initWorker pre) bad).logs
        = (captureRunFrom decode mjpg initWorker pre).logs
            ++ ["failed to decode JPEG"]
    ∧ (captureRunFrom decode mjpg initWorker ((pre ++ bad :: post) ++ [extra])).store
        = d := by
  refine ⟨?_, ?_, ?_, ?_⟩
  · rw [captureRunFrom_updates]
    rw [List.countP_append, List.countP_cons]
    rw [List.countP_eq_length.mpr hpre, List.countP_eq_length.mpr hpost]
    simp [initWorker, hbad]
  · simp [captureStep, mjpg, rgb3, hbad]
  · simp [captureStep, mjpg, rgb3, hbad]
  · rw [captureRunFrom_append]
    simp [captureRunFrom, captureStep, mjpg, rgb3, hextra]

/-- Witness for c3_one_bad_delivery_skipped: one valid delivery, then an
empty (malformed) buffer, then one valid delivery, then one more; two
updates around the skipped one and the last delivery ends up in the
store. -/
theorem c3_one_bad_delivery_skipped_witness :
    (captureRunFrom decodeNonEmpty mjpg initWorker ([[1]] ++ [] :: [[2]])).updates
        = [[1]].length + [[2]].length
    ∧ (captureStep decodeNonEmpty mjpg
          (captureRunFrom decodeNonEmpty mjpg initWorker [[1]]) []).store
        = (captureRunFrom decodeNonEmpty mjpg initWorker [[1]]).store
    ∧ (captureStep decodeNonEmpty mjpg
          (captureRunFrom decodeNonEmpty mjpg initWorker [[1]]) []).logs
        = (captureRunFrom decodeNonEmpty mjpg initWorker [[1]]).logs
            ++ ["failed to decode JPEG"]
    ∧ (captureRunFrom decodeNonEmpty mjpg initWorker
          (([[1]] ++ [] :: [[2]]) ++ [[3]])).store = [3] :=
  c3_one_bad_delivery_skipped decodeNonEmpty [[1]] [[2]] [] [3] [3]
    (by decide) (by decide) (by decide) (by decide)

/-- Claim C4, counterexample: with a negotiated fourcc that is neither RGB3
nor MJPG, the worker logs the invalid-pixelformat line for the first
delivery and then also processes the second delivery (a second log line):
the capture loop continues; it does not terminate, contradicting the
claimed fatality. -/
theorem c4_invalid_format_does_not_terminate :
    (captureRunFrom (fun _ => none) yuyv initWorker [[1], [2]]).logs
        = ["invalid buffer pixelformat", "invalid buffer pixelformat"]
    ∧ (captureRunFrom (fun _ => none) yuyv initWorker [[1], [2]]).store = []
    ∧ (captureRunFrom (fun _ => none) yuyv initWorker [[1], [2]]).updates = 0 := by
  refine ⟨?_, ?_, ?_⟩ <;> decide

/-- Claim C4, amended: a buffer whose negotiated encoding is neither RawRGB
nor MotionJPEG makes the worker log the invalid-pixelformat line and skip
the frame, leaving the store and update count unchanged, after which the
loop continues with the remaining deliveries exactly as if restarted from
the logged state. -/
theorem c4_invalid_format_logged_and_skipped (decode : Bytes → Option Bytes)
    (fourcc : String) (s : WorkerState) (buf : Bytes) (more : List Bytes)
    (h1 : fourcc ≠ rgb3) (h2 : fourcc ≠ mjpg) :
    captureStep decode fourcc s buf
        = ⟨s.store, s.updates, s.logs ++ ["invalid buffer pixelformat"]⟩
    ∧ captureRunFrom decode fourcc s (buf :: more)
        = captureRunFrom decode fourcc
            ⟨s.store, s.updates, s.logs ++ ["invalid buffer pixelformat"]⟩ more := by
  constructor
  · simp [captureStep, h1, h2]
  · simp [captureRunFrom, captureStep, h1, h2]

/-- Witness for c4_invalid_format_logged_and_skipped at the YUYV fourcc. -/
theorem c4_invalid_format_logged_and_skipped_witness :
    captureStep (fun _ => none) yuyv initWorker [9]
        = ⟨initWorker.store, initWorker.updates,
            initWorker.logs ++ ["invalid buffer pixelformat"]⟩
    ∧ captureRunFrom (fun _ => none) yuyv initWorker ([9] :: [])
        = captureRunFrom (fun _ => none) yuyv
            ⟨initWorker.store, initWorker.updates,
              initWorker.logs ++ ["invalid buffer pixelformat"]⟩ [] :=
  c4_invalid_format_logged_and_skipped (fun _ => none) yuyv initWorker [9] []
    (by decide) (by decide)

/-- Claim C8: a negotiation failure on either camera propagates to the top
level (main returns the error, hence a non-zero process exit) with no
window or render state created; when camera 1 fails, camera 2 is never
negotiated so its capture thread is not spawned either, and a set_format
failure carries its context message. -/
theorem c8_negotiation_failure_aborts (dev1 dev2 : Device) (width height : Nat) :
    (∀ e, (cam dev1 width height).result = .error e →
        mainStartup dev1 dev2 width height = (.error e, ⟨[], false⟩))
    ∧ (∀ e f1, (cam dev1 width height).result = .ok f1 →
        (cam dev2 width height).result = .error e →
        mainStartup dev1 dev2 width height = (.error e, ⟨[1], false⟩))
    ∧ (dev1.openOk = true → dev1.setFormatOk = false →
        (cam dev1 width height).result = .error "Could not set format") := by
  refine ⟨?_, ?_, ?_⟩
  · intro e he
    simp [mainStartup, he]
  · intro e f1 h1 h2
    simp [mainStartup, h1, h2]
  · intro ho hs
    simp [cam, ho, hs]

/-- Witness for c8_negotiation_failure_aborts: camera 1 fails to open, so
main returns the error with no window and no capture threads. -/
theorem c8_negotiation_failure_aborts_witness :
    mainStartup failOpenDevice acceptAllDevice 1280 720
        = (.error "could not open device", ⟨[], false⟩) :=
  (c8_negotiation_failure_aborts failOpenDevice acceptAllDevice 1280 720).1
    "could not open device" rfl

/-- Claim C9: whenever the JPEG decode of a delivered buffer succeeds, the
worker publishes exactly the decoder output to the frame store and counts
one update, with no condition relating the output length to the negotiated
width, height or color layout (neither appears in the loop body at all). -/
theorem c9_decoded_bytes_published_unchecked (decode : Bytes → Option Bytes)
    (s : WorkerState) (buf out : Bytes) (h : decode buf = some out) :
    (captureStep decode mjpg s buf).store = out
    ∧ (captureStep decode mjpg s buf).updates = s.updates + 1
    ∧ (captureStep decode mjpg s buf).logs = s.logs := by
  simp [captureStep, mjpg, rgb3, h]

/-- Witness for c9_decoded_bytes_published_unchecked: a 1 by 1 JPEG decoded
to 3 bytes is published as-is into a store negotiated at 1280 by 720, whose
expected frame size 1280*720*3 the 3-byte payload does not match. -/
theorem c9_decoded_bytes_published_unchecked_witness :
    ((captureStep decodeTiny mjpg initWorker [0]).store = [7, 7, 7]
      ∧ (captureStep decodeTiny mjpg initWorker [0]).updates = initWorker.updates + 1
      ∧ (captureStep decodeTiny mjpg initWorker [0]).logs = initWorker.logs)
    ∧ ([7, 7, 7] : Bytes).length ≠ 1280 * 720 * 3 :=
  ⟨c9_decoded_bytes_published_unchecked decodeTiny initWorker [0] [7, 7, 7] rfl,
   by decide⟩

/-- Claim C2, counterexample: a worker negotiated at 2 by 2 MJPG receives a
buffer that decodes (as a well-formed 1 by 1 JPEG would) to 3 bytes; the
worker publishes them unchecked and the compositor clones out a payload of
length 3, which is neither empty nor the claimed exact frame size
2*2*3 = 12. -/
theorem c2_read_not_frame_sized :
    (sysRun decodeTiny mjpg [.deliver [0], .readTick]).reads = [[7, 7, 7]]
    ∧ (∀ p ∈ (sysRun decodeTiny mjpg [.deliver [0], .readTick]).reads,
        p.length ≠ 0 ∧ p.length ≠ 2 * 2 * 3) := by
  refine ⟨by decide, ?_⟩
  intro p hp
  have : p = [7, 7, 7] := by
    have h : (sysRun decodeTiny mjpg [.deliver [0], .readTick]).reads
        = [[7, 7, 7]] := by decide
    rw [h] at hp
    simpa using hp
  subst this
  decide

/-- Claim C2, amended: over every interleaving of capture-loop iterations
and compositor reads of one frame store, each payload the reader clones out
is either empty or exactly one payload some earlier delivery published in
full (the write replaces the whole payload in one exclusive operation), so
no torn or partial frame is observable; the published payload itself,
however, is the decoder output as-is, whose length the code never compares
with width*height*3. -/
theorem c2_reads_are_whole_publishes (decode : Bytes → Option Bytes)
    (fourcc : String) (events : List SysEvent) :
    ∀ p ∈ (sysRun decode fourcc events).reads,
      p = [] ∨ p ∈ publishes decode fourcc events := by
  intro p hp
  have h := sysRunFrom_invariant decode fourcc events (fun _ => False)
      ⟨initWorker, []⟩ (Or.inl rfl) (by simp) p hp
  tauto

/-- Witness for c2_reads_are_whole_publishes at a concrete interleaving. -/
theorem c2_reads_are_whole_publishes_witness :
    ([7, 7, 7] : Bytes) = []
      ∨ ([7, 7, 7] : Bytes) ∈ publishes decodeTiny mjpg [.deliver [0], .readTick] :=
  c2_reads_are_whole_publishes decodeTiny mjpg [.deliver [0], .readTick]
    [7, 7, 7] (by decide)

/-- Claim C5: camera 1's draw call can change only the red and alpha
channels of any framebuffer pixel and camera 2's only green, blue and
alpha; on an all-red camera-1 frame and an all-blue camera-2 frame the
composited pixel takes red 255 from camera 1, blue 255 from camera 2,
green 0 and alpha 255. -/
theorem c5_masked_anaglyph_composite :
    (∀ src fb, (drawPixel camera1Mask src fb).g = fb.g
        ∧ (drawPixel camera1Mask src fb).b = fb.b)
    ∧ (∀ src fb, (drawPixel camera2Mask src fb).r = fb.r)
    ∧ compositePixel (rgbTexel 255 0 0) (rgbTexel 0 0 255) = ⟨255, 0, 255, 255⟩
    ∧ (compositePixel (rgbTexel 255 0 0) (rgbTexel 0 0 255)).r
        = (rgbTexel 255 0 0).r
    ∧ (compositePixel (rgbTexel 255 0 0) (rgbTexel 0 0 255)).b
        = (rgbTexel 0 0 255).b := by
  refine ⟨fun src fb => ⟨rfl, rfl⟩, fun src fb => rfl, ?_, ?_, ?_⟩ <;> decide

/-- Claim C7: an empty frame-store payload makes the compositor skip that
camera's texture upload and draw for the tick; with only store 1 empty just
camera 2 is drawn, with only store 2 empty just camera 1, with both empty
nothing, and the tick function is total (no crash, no waiting). -/
theorem c7_empty_payload_skips_draw (p1 p2 : Bytes) (f1 f2 : Format) :
    (p1 = [] → Cam.cam1 ∉ compositorTick p1 p2 f1 f2)
    ∧ (p2 = [] → Cam.cam2 ∉ compositorTick p1 p2 f1 f2)
    ∧ (p1 = [] → compositorTick p1 p2 f1 f2
        = if p2.isEmpty then [] else [Cam.cam2])
    ∧ (p2 = [] → compositorTick p1 p2 f1 f2
        = if p1.isEmpty then [] else [Cam.cam1])
    ∧ compositorTick [] [] f1 f2 = []
    ∧ (p1 ≠ [] → p2 ≠ [] → compositorTick p1 p2 f1 f2 = [Cam.cam1, Cam.cam2]) := by
  cases p1 <;> cases p2 <;>
    simp [compositorTick, image_to_uniforms]

/-- Witness for c7_empty_payload_skips_draw: store 1 never written, store 2
holding one frame; only camera 2 is drawn. -/
theorem c7_empty_payload_skips_draw_witness :
    Cam.cam1 ∉ compositorTick [] [9] testFormat testFormat
    ∧ compositorTick [] [9] testFormat testFormat
        = if ([9] : Bytes).isEmpty then [] else [Cam.cam2] :=
  ⟨(c7_empty_payload_skips_draw [] [9] testFormat testFormat).1 rfl,
   (c7_empty_payload_skips_draw [] [9] testFormat testFormat).2.2.1 rfl⟩

theorem renderedPixel_flip_y (width height r c : Nat) (src : Nat → Nat → Nat)
    (hr : r < height) :
    renderedPixel true false width height src r c
      = src (height - 1 - r) (width - 1 - c) := by
  have h1 : height - 1 - (height - 1 - (height - 1 - r)) = height - 1 - r := by
    omega
  simp [renderedPixel, fragIndexTransform, textureAt, h1]

theorem renderedPixel_no_flip (width height r c : Nat) (src : Nat → Nat → Nat)
    (hr : r < height) :
    renderedPixel false false width height src r c = src r c := by
  have h1 : height - 1 - (height - 1 - r) = r := by omega
  simp [renderedPixel, fragIndexTransform, textureAt, h1]

/-- Claim C6: enabling a camera's vertical-flip option flips both axes of
its rendered quad: output pixel (r, c) shows source pixel
(height-1-r, width-1-c), so the source marker at row 0, column 0 lands at
output row height-1, column width-1; an unflipped camera shows source pixel
(r, c) at output (r, c), keeping its marker at row 0, column 0. -/
theorem c6_flip_y_couples_horizontal (width height r c : Nat)
    (hr : r < height) (_hc : c < width) (src1 src2 : Nat → Nat → Nat) :
    renderedPixel true false width height src1 r c
        = src1 (height - 1 - r) (width - 1 - c)
    ∧ renderedPixel false false width height src2 r c = src2 r c
    ∧ renderedPixel true false width height src1 (height - 1) (width - 1)
        = src1 0 0
    ∧ renderedPixel false false width height src2 0 0 = src2 0 0 := by
  have hH : 0 < height := by omega
  refine ⟨renderedPixel_flip_y width height r c src1 hr,
    renderedPixel_no_flip width height r c src2 hr, ?_, ?_⟩
  · rw [renderedPixel_flip_y width height (height - 1) (width - 1) src1 (by omega)]
    have e1 : height - 1 - (height - 1) = 0 := by omega
    have e2 : width - 1 - (width - 1) = 0 := by omega
    rw [e1, e2]
  · exact renderedPixel_no_flip width height 0 0 src2 hH

/-- Frame with a marker value 1 at row 0, column 0 and 0 elsewhere. -/
def markerFrame : Nat → Nat → Nat := fun r c => if r = 0 ∧ c = 0 then 1 else 0

/-- Witness for c6_flip_y_couples_horizontal on a 3-wide, 2-high frame. -/
theorem c6_flip_y_couples_horizontal_witness :
    renderedPixel true false 3 2 markerFrame 0 0
        = markerFrame (2 - 1 - 0) (3 - 1 - 0)
    ∧ renderedPixel false false 3 2 markerFrame 0 0 = markerFrame 0 0
    ∧ renderedPixel true false 3 2 markerFrame (2 - 1) (3 - 1) = markerFrame 0 0
    ∧ renderedPixel false false 3 2 markerFrame 0 0 = markerFrame 0 0 :=
  c6_flip_y_couples_horizontal 3 2 0 0 (by decide) (by decide)
    markerFrame markerFrame

/-- Claim C10: when a camera's flip_y option is set, the generated shader
applies x to 1-x inside the flip_y block and, if the global flip_x flag is
also set, once more in the flip_x block; the two cancel, leaving the pure
vertical flip (x, y) to (x, 1-y). Without flip_x the coupled transform
(1-x, 1-y) remains, and flip_x alone gives (1-x, y). -/
theorem c10_flip_x_cancels_coupled_flip (u v : ℚ) :
    fragTransform true true (u, v) = (u, 1 - v)
    ∧ fragTransform true false (u, v) = (1 - u, 1 - v)
    ∧ fragTransform false true (u, v) = (1 - u, v)
    ∧ fragTransform false false (u, v) = (u, v) := by
  refine ⟨?_, rfl, rfl, rfl⟩
  simp [fragTransform]

end AnaglyphRobot
